import Mathlib

/-!
Verification of the Factory Method example in
`src/design-patterns/creational/factory.ts`.

The TypeScript file declares a closed hierarchy: an interface `Transport`
with exactly two implementing classes (`Truck`, `Ship`), an abstract class
`TransportCreator` whose subclasses (`TruckCreator`, `ShipCreator`) supply
`factoryMethod`, an inherited template method `someOperation`, a
`clientCode` procedure, and a top-level script that runs `clientCode` for
both creators, printing to standard output.

The embedding is pure: every `console.log` line becomes an element of a
`List String` of output lines, in print order.  All classes are stateless,
so each class instance is fully determined by its class; the closed set of
`Transport` implementers becomes an inductive type, and a
`TransportCreator` is determined by its `factoryMethod` implementation,
which we model as a field of a structure.
-/

/-- The closed set of `Transport` implementers in the source file:
`class Truck implements Transport` and `class Ship implements Transport`. -/
inductive Transport where
  | Truck : Transport
  | Ship : Transport
deriving DecidableEq

/-- `Truck.operation` returns the literal `'\x7bTransport by land\x7d'` and
`Ship.operation` returns the literal `'\x7bTransport by sea\x7d'`
(factory.ts lines 67-77); the braces are part of the returned string. -/
def Transport.operation : Transport → String
  | Transport.Truck => "\x7bTransport by land\x7d"
  | Transport.Ship => "\x7bTransport by sea\x7d"

/-- The abstract class `TransportCreator`: a concrete subclass is exactly an
implementation of `public abstract factoryMethod(): Transport`, so a creator
instance is modelled by the `Transport` value its `factoryMethod` builds
(all products are stateless, so a freshly built product is determined by
its class). -/
structure TransportCreator where
  factoryMethod : Transport

/-- The inherited template method `someOperation` (factory.ts lines 26-31):
calls `this.factoryMethod()` and returns the template literal
`TransportCreator: The same creator\x27s code has just worked with
$\x7btransport.operation()\x7d`. -/
def TransportCreator.someOperation (c : TransportCreator) : String :=
  let transport := c.factoryMethod
  "TransportCreator: The same creator\x27s code has just worked with "
    ++ transport.operation

/-- `class TruckCreator extends TransportCreator`: its `factoryMethod`
returns `new Truck()` (factory.ts lines 45-47). -/
def TruckCreator : TransportCreator :=
  { factoryMethod := Transport.Truck }

/-- `class ShipCreator extends TransportCreator`: its `factoryMethod`
returns `new Ship()` (factory.ts lines 51-53). -/
def ShipCreator : TransportCreator :=
  { factoryMethod := Transport.Ship }

/-- The two creator variants of the spec, `\x7bTruck, Ship\x7d`, as a closed
tag set; `creatorOf` is the fixed variant-to-concrete-creator mapping. -/
inductive Variant where
  | Truck : Variant
  | Ship : Variant
deriving DecidableEq

/-- The concrete creator matching a variant tag. -/
def creatorOf : Variant → TransportCreator
  | Variant.Truck => TruckCreator
  | Variant.Ship => ShipCreator

/-- The spec operation `describe(creatorVariant) -> string`, realized in the
source as `someOperation` on the concrete creator matching the variant. -/
def describe (v : Variant) : String :=
  (creatorOf v).someOperation

/-- `function clientCode(creator: TransportCreator)` (factory.ts lines
84-91): prints the fixed awareness line, then `creator.someOperation()`;
the result is its standard-output lines in print order (it returns no
value). -/
def clientCode (creator : TransportCreator) : List String :=
  ["Client: I\x27m not aware of the creator\x27s class, but it still works.",
   creator.someOperation]

/-- The top-level script (factory.ts lines 97-102): announcement for the
Truck case, `clientCode(new TruckCreator())`, an empty line, announcement
for the Ship case, `clientCode(new ShipCreator())`; the result is every
standard-output line of a run, in print order. -/
def mainOutput : List String :=
  ["App: Launched with the TruckCreator."]
    ++ clientCode TruckCreator
    ++ [""]
    ++ ["App: Launched with the ShipCreator."]
    ++ clientCode ShipCreator

/-- The fixed per-variant substring of the spec's testable property:
`Transport by land` for Truck, `Transport by sea` for Ship (no braces). -/
def subOf : Variant → String
  | Variant.Truck => "Transport by land"
  | Variant.Ship => "Transport by sea"

/-- The other variant of the two-element variant set. -/
def other : Variant → Variant
  | Variant.Truck => Variant.Ship
  | Variant.Ship => Variant.Truck

/-- Claim C1: `describe(Truck)` and `describe(Ship)` return exactly the two
fixed strings of the spec scenarios. -/
theorem describe_exact_strings :
    describe Variant.Truck =
      "TransportCreator: The same creator\x27s code has just worked with \x7bTransport by land\x7d"
    ∧ describe Variant.Ship =
      "TransportCreator: The same creator\x27s code has just worked with \x7bTransport by sea\x7d" :=
  ⟨rfl, rfl⟩

/-- Claim C2, counterexample: the end-to-end run does not print exactly four
lines of standard output; `mainOutput` has seven lines (the two
client-awareness lines and the blank separator line are also printed). -/
theorem mainOutput_not_four_lines : mainOutput.length ≠ 4 := by
  decide

/-- Claim C2, amended: the end-to-end run prints exactly seven lines, and the
four lines the claim names appear in its fixed order at positions 0, 2, 4
and 6: Truck announcement, Truck result, Ship announcement, Ship result. -/
theorem mainOutput_spec_lines_in_order :
    mainOutput.length = 7
    ∧ mainOutput[0]? = some "App: Launched with the TruckCreator."
    ∧ mainOutput[2]? =
        some "TransportCreator: The same creator\x27s code has just worked with \x7bTransport by land\x7d"
    ∧ mainOutput[4]? = some "App: Launched with the ShipCreator."
    ∧ mainOutput[6]? =
        some "TransportCreator: The same creator\x27s code has just worked with \x7bTransport by sea\x7d" :=
  ⟨rfl, rfl, rfl, rfl, rfl⟩

/-- Claim C3, counterexample: `Truck.operation` does not return the string
`Transport by land`; the returned string carries surrounding braces. -/
theorem truck_operation_not_unbraced :
    Transport.Truck.operation ≠ "Transport by land" := by
  decide

/-- Claim C3, amended: each Product variant returns its fixed descriptive
string including the surrounding braces: `\x7bTransport by land\x7d` for
Truck and `\x7bTransport by sea\x7d` for Ship. -/
theorem operation_fixed_strings :
    Transport.Truck.operation = "\x7bTransport by land\x7d"
    ∧ Transport.Ship.operation = "\x7bTransport by sea\x7d" :=
  ⟨rfl, rfl⟩

/-- Claim C4: the creator-to-product mapping is fixed: `TruckCreator`'s
`factoryMethod` yields a `Truck` and `ShipCreator`'s yields a `Ship`, and
the concrete creator matching each variant tag produces exactly that
variant's product. -/
theorem factoryMethod_fixed_mapping :
    TruckCreator.factoryMethod = Transport.Truck
    ∧ ShipCreator.factoryMethod = Transport.Ship
    ∧ (creatorOf Variant.Truck).factoryMethod = Transport.Truck
    ∧ (creatorOf Variant.Ship).factoryMethod = Transport.Ship :=
  ⟨rfl, rfl, rfl, rfl⟩

set_option maxRecDepth 8000 in
/-- Claim C5: for every variant, `describe v` contains that variant's fixed
substring and does not contain the other variant's substring. -/
theorem describe_substrings (v : Variant) :
    (subOf v).data <:+: (describe v).data
    ∧ ¬ (subOf (other v)).data <:+: (describe v).data := by
  cases v <;> exact ⟨by decide, by decide⟩

/-- Claim C6: `describe` is idempotent and stateless: a creator's
`someOperation` is a pure function of its `factoryMethod` result, so any
two creator instances whose factory method builds the variant's product
return the same string, equal to `describe v`, on every invocation. -/
theorem describe_stateless (v : Variant) (c₁ c₂ : TransportCreator)
    (h₁ : c₁.factoryMethod = (creatorOf v).factoryMethod)
    (h₂ : c₂.factoryMethod = (creatorOf v).factoryMethod) :
    c₁.someOperation = c₂.someOperation ∧ c₁.someOperation = describe v := by
  refine ⟨?_, ?_⟩ <;>
    simp [TransportCreator.someOperation, describe, h₁, h₂]

/-- Witness for claim C6 at the Truck variant with two fresh `TruckCreator`
instances. -/
theorem describe_stateless_witness :
    TruckCreator.someOperation = TruckCreator.someOperation
    ∧ TruckCreator.someOperation = describe Variant.Truck :=
  describe_stateless Variant.Truck TruckCreator TruckCreator rfl rfl

/-- Claim C7: `describe` totally succeeds on the closed variant set: every
variant is one of the two tags, and `describe` returns a (non-empty) string
on each with no failure path (it is a total function in the embedding). -/
theorem describe_total (v : Variant) :
    (v = Variant.Truck ∨ v = Variant.Ship)
    ∧ ∃ s : String, describe v = s ∧ s ≠ "" := by
  cases v
  · exact ⟨Or.inl rfl, describe Variant.Truck, rfl, by decide⟩
  · exact ⟨Or.inr rfl, describe Variant.Ship, rfl, by decide⟩

/-- Claim C8: the end-to-end run prints exactly these seven lines in this
order: Truck announcement, client-awareness line, Truck result, one empty
line, Ship announcement, client-awareness line, Ship result. -/
theorem mainOutput_seven_lines :
    mainOutput =
      ["App: Launched with the TruckCreator.",
       "Client: I\x27m not aware of the creator\x27s class, but it still works.",
       "TransportCreator: The same creator\x27s code has just worked with \x7bTransport by land\x7d",
       "",
       "App: Launched with the ShipCreator.",
       "Client: I\x27m not aware of the creator\x27s class, but it still works.",
       "TransportCreator: The same creator\x27s code has just worked with \x7bTransport by sea\x7d"] :=
  rfl

/-- Claim C9: for every concrete creator (every implementation of
`factoryMethod`), the inherited `someOperation` returns the fixed prefix
concatenated with `operation()` of the product that `factoryMethod`
yields. -/
theorem someOperation_template (c : TransportCreator) :
    c.someOperation =
      "TransportCreator: The same creator\x27s code has just worked with "
        ++ c.factoryMethod.operation :=
  rfl

/-- Claim C10: for every creator, `clientCode` prints exactly two lines:
the fixed client-awareness line, then the creator's `someOperation` result;
it depends on the creator only through `someOperation`. -/
theorem clientCode_two_lines (c : TransportCreator) :
    clientCode c =
      ["Client: I\x27m not aware of the creator\x27s class, but it still works.",
       c.someOperation] :=
  rfl
